import Mathlib

/-!
Shallow embedding of `keras/regularizers.py` (penalty functions for a
neural-network training framework) and verification of its specified
properties.

Modelling conventions:
* backend floating-point scalars are idealised as `ℚ` (exact arithmetic);
  the one genuinely irrational operation, `** 0.5`, is modelled by
  `Real.sqrt` on the cast to `ℝ`;
* a generic tensor is its flattened element list `List ℚ` where only the
  elementwise sums matter, and a rank-2 tensor is a row-major matrix
  `List (List ℚ)`;
* Python exceptions are the `Except String` error channel, carrying the
  message text of the source;
* Python truthiness of a coefficient (`if self.l1:`) is the test `l1 ≠ 0`;
* the ambient training-phase flag consulted by `K.in_train_phase` is an
  explicit boolean argument.
-/

namespace KerasRegularizers

/-- A flattened tensor: the list of its elements. -/
abbrev Tensor := List ℚ

/-- A rank-2 tensor, row-major. -/
abbrev Mat := List (List ℚ)

/-! ## L1L2 (`L1L2.__call__`)

```python
def __call__(self, x):
    regularization = 0.
    if self.l1:
        regularization += K.sum(self.l1 * K.abs(x))
    if self.l2:
        regularization += K.sum(self.l2 * K.square(x))
    return regularization
```
-/

/-- Python `L1L2.__call__`: the penalty of the stateless L1L2 regularizer with
coefficients `l1`, `l2` on the tensor `x`.  Each summand is guarded by the
Python truthiness of its coefficient and is the sum-reduction of the
elementwise product of the scalar coefficient with `K.abs x`
(resp. `K.square x`). -/
def L1L2.call (l1 l2 : ℚ) (x : Tensor) : ℚ :=
  let regularization : ℚ := 0
  let regularization :=
    if l1 ≠ 0 then regularization + (x.map (fun a => l1 * |a|)).sum
    else regularization
  let regularization :=
    if l2 ≠ 0 then regularization + (x.map (fun a => l2 * a ^ 2)).sum
    else regularization
  regularization

/-- Pulling a scalar factor out of an elementwise-scaled sum. -/
theorem sum_map_mul_left (c : ℚ) (f : ℚ → ℚ) (x : List ℚ) :
    (x.map (fun a => c * f a)).sum = c * (x.map f).sum := by
  induction x with
  | nil => simp
  | cons a t ih => simp [ih]; ring

/-- Claim C1. The L1L2 penalty equals `l1*Σ|xᵢ| + l2*Σxᵢ²` for non-negative
coefficients, and the zero-coefficient regularizer `L1L2(0,0)` yields
exactly `0` on every tensor (its summands are skipped, not multiplied by
zero). -/
theorem L1L2_call_eq (l1 l2 : ℚ) (x : Tensor) (h1 : 0 ≤ l1) (h2 : 0 ≤ l2) :
    L1L2.call l1 l2 x
      = l1 * (x.map (fun a => |a|)).sum + l2 * (x.map (fun a => a ^ 2)).sum
    ∧ L1L2.call 0 0 x = 0 := by
  constructor
  · unfold L1L2.call
    by_cases e1 : l1 = 0 <;> by_cases e2 : l2 = 0 <;>
      simp [e1, e2, sum_map_mul_left]
  · simp [L1L2.call]

/-- Witness for C1 at `l1 = 1/2`, `l2 = 2`, `x = [1, -2, 3]`. -/
theorem L1L2_call_eq_witness :
    L1L2.call (1/2) 2 [1, -2, 3]
        = (1/2) * (([1, -2, 3] : Tensor).map (fun a => |a|)).sum
          + 2 * (([1, -2, 3] : Tensor).map (fun a => a ^ 2)).sum
      ∧ L1L2.call 0 0 [1, -2, 3] = 0 :=
  L1L2_call_eq (1/2) 2 [1, -2, 3] (by norm_num) (by norm_num)

/-! ## Legacy bound variants (`WeightRegularizer`, `ActivityRegularizer`)

Both bind at most once to an external owner (a parameter tensor, resp. a
layer), stored in a field initialised to `None`.  A layer is modelled by
the list of its output tensors (one per inbound node, in order of the
`get_output_at` index). -/

/-- A layer as seen by `ActivityRegularizer`: its output tensors, indexed
by inbound node. -/
abbrev Layer := List Tensor

/-- Python `WeightRegularizer.__init__` state: coefficients plus the optional
bound parameter tensor `p` (initially `None`). -/
structure WeightRegularizer where
  l1 : ℚ
  l2 : ℚ
  p : Option Tensor

/-- Error message raised by `WeightRegularizer.set_param` on reuse. -/
def weightReuseMsg : String :=
  "Regularizers cannot be reused. Instantiate one regularizer per layer."

/-- Error message raised by `WeightRegularizer.__call__` before binding. -/
def weightUnboundMsg : String :=
  "Need to call `set_param` on WeightRegularizer instance before calling the instance. Check that you are not passing a WeightRegularizer instead of an ActivityRegularizer (i.e. activity_regularizer=\"l2\" instead of activity_regularizer=\"activity_l2\"."

/-- Python `WeightRegularizer.set_param`: rejected when `self.p is not None`,
otherwise stores the argument (which may itself be `None`). -/
def WeightRegularizer.set_param (w : WeightRegularizer) (q : Option Tensor) :
    Except String WeightRegularizer :=
  match w.p with
  | some _ => .error weightReuseMsg
  | none => .ok { w with p := q }

/-- Python `WeightRegularizer.__call__`: fails when unbound; otherwise adds the
guarded L1 and L2 summands over the bound tensor onto the incoming loss and
returns the regularized loss in the training phase, the unmodified loss
otherwise (`K.in_train_phase`). -/
def WeightRegularizer.call (w : WeightRegularizer) (loss : ℚ)
    (trainPhase : Bool) : Except String ℚ :=
  match w.p with
  | none => .error weightUnboundMsg
  | some p =>
    let regularizedLoss := loss
    let regularizedLoss :=
      if w.l1 ≠ 0 then regularizedLoss + (p.map (fun a => w.l1 * |a|)).sum
      else regularizedLoss
    let regularizedLoss :=
      if w.l2 ≠ 0 then regularizedLoss + (p.map (fun a => w.l2 * a ^ 2)).sum
      else regularizedLoss
    .ok (if trainPhase then regularizedLoss else loss)

/-- Python `ActivityRegularizer.__init__` state: coefficients plus the optional
bound layer (initially `None`). -/
structure ActivityRegularizer where
  l1 : ℚ
  l2 : ℚ
  layer : Option Layer

/-- Error message raised by `ActivityRegularizer.set_layer` on reuse. -/
def activityReuseMsg : String := "Regularizers cannot be reused"

/-- Error message raised by `ActivityRegularizer.__call__` before
binding. -/
def activityUnboundMsg : String :=
  "Need to call `set_layer` on ActivityRegularizer instance before calling the instance."

/-- Python `ActivityRegularizer.set_layer`: rejected when `self.layer is not
None`, otherwise stores the argument. -/
def ActivityRegularizer.set_layer (r : ActivityRegularizer)
    (ly : Option Layer) : Except String ActivityRegularizer :=
  match r.layer with
  | some _ => .error activityReuseMsg
  | none => .ok { r with layer := ly }

/-- Python `ActivityRegularizer.__call__`: fails when unbound; otherwise folds
over the outputs of the bound layer (one per inbound node), accumulating the
guarded L1 and L2 summands of each output into the loss, then applies the
training-phase conditional. -/
def ActivityRegularizer.call (r : ActivityRegularizer) (loss : ℚ)
    (trainPhase : Bool) : Except String ℚ :=
  match r.layer with
  | none => .error activityUnboundMsg
  | some ly =>
    let regularizedLoss := ly.foldl
      (fun acc output =>
        let acc := if r.l1 ≠ 0 then acc + (output.map (fun a => r.l1 * |a|)).sum
                   else acc
        if r.l2 ≠ 0 then acc + (output.map (fun a => r.l2 * a ^ 2)).sum
        else acc)
      loss
    .ok (if trainPhase then regularizedLoss else loss)

/-- Claim C8. One-time bind protocol of the legacy bound variants: a first
bind on a fresh instance succeeds; a second bind on an already-bound
instance fails with the reuse-violation error; calling an instance before
any bind fails with the unbound-use error.  Both for the weight variant
(`set_param`) and the activity variant (`set_layer`). -/
theorem legacy_bind_protocol (l1 l2 loss : ℚ) (p : Tensor)
    (q : Option Tensor) (ly : Layer) (ly₂ : Option Layer)
    (phase : Bool) :
    (WeightRegularizer.mk l1 l2 none).set_param (some p)
        = .ok (WeightRegularizer.mk l1 l2 (some p))
    ∧ (WeightRegularizer.mk l1 l2 (some p)).set_param q
        = .error weightReuseMsg
    ∧ (WeightRegularizer.mk l1 l2 none).call loss phase
        = .error weightUnboundMsg
    ∧ (ActivityRegularizer.mk l1 l2 none).set_layer (some ly)
        = .ok (ActivityRegularizer.mk l1 l2 (some ly))
    ∧ (ActivityRegularizer.mk l1 l2 (some ly)).set_layer ly₂
        = .error activityReuseMsg
    ∧ (ActivityRegularizer.mk l1 l2 none).call loss phase
        = .error activityUnboundMsg := by
  refine ⟨rfl, rfl, rfl, rfl, rfl, rfl⟩

/-- Claim C9. A bound legacy weight regularizer adds
`l1*Σ|pᵢ| + l2*Σpᵢ²` over the bound tensor onto the loss during the
training phase, and returns the unmodified loss outside it. -/
theorem weight_call_phases (l1 l2 loss : ℚ) (p : Tensor) :
    (WeightRegularizer.mk l1 l2 (some p)).call loss true
        = .ok (loss + (l1 * (p.map (fun a => |a|)).sum
                        + l2 * (p.map (fun a => a ^ 2)).sum))
    ∧ (WeightRegularizer.mk l1 l2 (some p)).call loss false = .ok loss := by
  constructor
  · unfold WeightRegularizer.call
    by_cases e1 : l1 = 0 <;> by_cases e2 : l2 = 0 <;>
      simp [e1, e2, sum_map_mul_left] <;> ring
  · unfold WeightRegularizer.call
    by_cases e1 : l1 = 0 <;> by_cases e2 : l2 = 0 <;> simp [e1, e2]

/-- Claim C10. Binding `None` does not transition a fresh weight regularizer
to the bound state: `set_param None` succeeds but leaves the instance
unbound, calling it afterwards still raises the unbound-use error, and a
subsequent `set_param` succeeds rather than raising the reuse-violation
error. -/
theorem weight_set_param_none (l1 l2 loss : ℚ) (p : Tensor) (phase : Bool) :
    (WeightRegularizer.mk l1 l2 none).set_param none
        = .ok (WeightRegularizer.mk l1 l2 none)
    ∧ (((WeightRegularizer.mk l1 l2 none).set_param none).bind
          (fun w => w.call loss phase)) = .error weightUnboundMsg
    ∧ (((WeightRegularizer.mk l1 l2 none).set_param none).bind
          (fun w => w.set_param (some p)))
        = .ok (WeightRegularizer.mk l1 l2 (some p)) := by
  refine ⟨rfl, rfl, rfl⟩

/-! ## Matrix backend operations (`K.transpose`, `K.dot`, `K.ones`)

The eigenvalue regularizer only ever uses rank-2 values: the input matrix,
the Gram matrix, and column vectors (n×1 matrices).  `K.dot` is ordinary
matrix multiplication. -/

/-- Dot product of two rows. -/
def dotList (u v : List ℚ) : ℚ := (List.zipWith (· * ·) u v).sum

/-- Backend `K.transpose` on a row-major matrix: column `j` of the input becomes
row `j` of the output (the number of columns is read off the first row). -/
def transpose (m : Mat) : Mat :=
  match m with
  | [] => []
  | r :: _ => (List.range r.length).map (fun j => m.map (fun row => row.getD j 0))

/-- Backend `K.dot`: matrix multiplication. -/
def matMul (a b : Mat) : Mat :=
  a.map (fun row => (transpose b).map (fun col => dotList row col))

/-- A column vector (n×1 matrix) from its entries. -/
def colMat (u : List ℚ) : Mat := u.map (fun a => [a])

/-- The single entry of a 1×1 matrix. -/
def mat11 (m : Mat) : ℚ := (m.headD []).headD 0

/-! ## EigenvalueRegularizer (`EigenvalueRegularizer.__call__`, active
definition)

```python
covariance = K.dot(K.transpose(x), x)
dim1, dim2 = K.eval(K.shape(covariance))
power = 9
o = K.ones([dim1, 1])
main_eigenvect = K.dot(covariance, o)
for n in range(power - 1):
    main_eigenvect = K.dot(covariance, main_eigenvect)
covariance_d = K.dot(covariance, main_eigenvect)
main_eigenval = (K.dot(K.transpose(covariance_d), main_eigenvect) /
                 K.dot(K.transpose(main_eigenvect), main_eigenvect))
regularization = (main_eigenval ** 0.5) * self.k
return K.sum(regularization)
```
-/

/-- The loop `for n in range(j): v = K.dot(c, v)`. -/
def powerIter (c : Mat) : Nat → Mat → Mat
  | 0, v => v
  | n + 1, v => powerIter c n (matMul c v)

/-- Python `EigenvalueRegularizer.__call__` on a rank-2 input, up to the square
root: the Gram matrix `covariance = xᵗ·x`, nine multiplications of the
all-ones column by `covariance` giving `main_eigenvect`, one further
multiplication giving `covariance_d`, and the 1×1 quotient
`(covariance_dᵗ·main_eigenvect) / (main_eigenvectᵗ·main_eigenvect)`. -/
def eigEstimate (x : Mat) : ℚ :=
  let covariance := matMul (transpose x) x
  let dim1 := covariance.length
  let o : Mat := List.replicate dim1 [(1 : ℚ)]
  let mainEigenvect := powerIter covariance (9 - 1) (matMul covariance o)
  let covarianceD := matMul covariance mainEigenvect
  mat11 (matMul (transpose covarianceD) mainEigenvect)
    / mat11 (matMul (transpose mainEigenvect) mainEigenvect)

/-- Python `EigenvalueRegularizer.__call__` on a rank-2 input: the sum-reduction
of `(main_eigenval ** 0.5) * k`, a 1×1 value, i.e. the scalar
`sqrt(main_eigenval) * k`. -/
noncomputable def EigenvalueRegularizer.call (k : ℚ) (x : Mat) : ℝ :=
  Real.sqrt (eigEstimate x : ℝ) * (k : ℝ)

/-! ### The rank-2 guard (`C6`) -/

/-- A backend tensor with shape metadata: `shape` is the list of dimension
sizes (so the rank is `shape.length`) and `data` the row-major elements. -/
structure KTensor where
  shape : List Nat
  data : List ℚ

/-- Backend `K.ndim`: the rank of a tensor. -/
def KTensor.ndim (t : KTensor) : Nat := t.shape.length

/-- Split a row-major element list into `r` rows of `c` entries each. -/
def buildRows : Nat → Nat → List ℚ → Mat
  | 0, _, _ => []
  | r + 1, c, l => l.take c :: buildRows r c (l.drop c)

/-- View a rank-2 `KTensor` as a row-major matrix. -/
def KTensor.toMat (t : KTensor) : Mat :=
  buildRows (t.shape.getD 0 0) (t.shape.getD 1 0) t.data

/-- Error message of the rank guard of the eigenvalue regularizer. -/
def eigRankMsg : String :=
  "EigenvalueRegularizer is only available for tensors of rank 2."

/-- Python `EigenvalueRegularizer.__call__` with its leading rank guard
(`if K.ndim(x) != 2: raise ValueError(...)`). -/
noncomputable def EigenvalueRegularizer.callT (k : ℚ) (t : KTensor) :
    Except String ℝ :=
  if t.ndim ≠ 2 then .error eigRankMsg
  else .ok (EigenvalueRegularizer.call k t.toMat)

/-- Claim C6. The eigenvalue regularizer fails exactly on inputs whose rank
is not 2, and the error it then raises is the rank-mismatch message; on
every rank-2 input it raises no error at all. -/
theorem eig_rank_guard (k : ℚ) (t : KTensor) (s : String) :
    EigenvalueRegularizer.callT k t = .error s
      ↔ (t.ndim ≠ 2 ∧ s = eigRankMsg) := by
  unfold EigenvalueRegularizer.callT
  by_cases h : t.ndim = 2 <;> simp [h, eq_comm]

/-! ### The power-method formula (`C2`)

Spec-side reformulation: `powerMethodVec c n` is the vector obtained from
the all-ones vector by `n` multiplications with `c`, so the variable
`main_eigenvect` of the code is `powerMethodVec c 9` and `covariance_d` corresponds to
`powerMethodVec c 10`. -/

/-- The Gram matrix `C = Xᵗ·X` of the spec. -/
def gramMatrix (x : Mat) : Mat := matMul (transpose x) x

/-- Iterated power-method steps: start from the all-ones vector and multiply by
`c` at each step. -/
def powerMethodVec (c : Mat) : Nat → List ℚ
  | 0 => List.replicate c.length 1
  | n + 1 => c.map (fun row => dotList row (powerMethodVec c n))

theorem powerMethodVec_length (c : Mat) (n : Nat) :
    (powerMethodVec c n).length = c.length := by
  cases n <;> simp [powerMethodVec]

theorem powerMethodVec_nil (n : Nat) : powerMethodVec [] n = [] := by
  cases n <;> simp [powerMethodVec]

theorem powerIter_nil (j : Nat) : powerIter [] j [] = [] := by
  induction j with
  | zero => rfl
  | succ j ih => simpa [powerIter, matMul] using ih

theorem dotList_nil_left (w : List ℚ) : dotList [] w = 0 := by
  simp [dotList]

theorem transpose_colMat (a : ℚ) (t : List ℚ) :
    transpose (colMat (a :: t)) = [a :: t] := by
  show transpose ([a] :: List.map (fun y => [y]) t) = [a :: t]
  simp [transpose, show List.range 1 = [0] by simp [List.range_succ],
    List.map_map, Function.comp_def]

theorem matMul_colMat (c : Mat) (w : List ℚ) (hw : w ≠ []) :
    matMul c (colMat w) = colMat (c.map (fun row => dotList row w)) := by
  cases w with
  | nil => exact absurd rfl hw
  | cons b s =>
    unfold matMul
    rw [transpose_colMat]
    simp [colMat, List.map_map]

theorem mat11_quadForm (u w : List ℚ) :
    mat11 (matMul (transpose (colMat u)) (colMat w)) = dotList u w := by
  cases u with
  | nil => simp [colMat, transpose, matMul, mat11, dotList]
  | cons a t =>
    rw [transpose_colMat]
    cases w with
    | nil => simp [colMat, transpose, matMul, mat11, dotList]
    | cons b s =>
      rw [show matMul [a :: t] (colMat (b :: s))
            = [[dotList (a :: t) (b :: s)]] by
        unfold matMul; rw [transpose_colMat]; simp]
      rfl

theorem powerIter_colMat (c : Mat) (hc : c ≠ []) (j m : Nat) :
    powerIter c j (colMat (powerMethodVec c m))
      = colMat (powerMethodVec c (m + j)) := by
  induction j generalizing m with
  | zero => rfl
  | succ j ih =>
    have hne : powerMethodVec c m ≠ [] := by
      have := powerMethodVec_length c m
      intro h
      rw [h] at this
      exact hc (List.eq_nil_of_length_eq_zero this.symm)
    have step : matMul c (colMat (powerMethodVec c m))
        = colMat (powerMethodVec c (m + 1)) := by
      rw [matMul_colMat c _ hne]; rfl
    calc powerIter c (j + 1) (colMat (powerMethodVec c m))
        = powerIter c j (colMat (powerMethodVec c (m + 1))) := by
          rw [powerIter, step]
      _ = colMat (powerMethodVec c (m + 1 + j)) := ih (m + 1)
      _ = colMat (powerMethodVec c (m + (j + 1))) := by ring_nf

/-- The eigenvalue estimate of `EigenvalueRegularizer.__call__` is the Rayleigh
quotient `⟨C·v, v⟩ / ⟨v, v⟩` with `v` the all-ones vector multiplied nine
times by the Gram matrix `C` (so `C·v` is the tenth multiplication). -/
theorem eigEstimate_eq (x : Mat) :
    eigEstimate x
      = dotList (powerMethodVec (gramMatrix x) 10) (powerMethodVec (gramMatrix x) 9)
        / dotList (powerMethodVec (gramMatrix x) 9) (powerMethodVec (gramMatrix x) 9) := by
  simp only [eigEstimate, gramMatrix]
  by_cases hc : matMul (transpose x) x = []
  · rw [hc]
    simp [powerMethodVec_nil, powerIter_nil, matMul, transpose, mat11,
      dotList_nil_left]
  · rw [show List.replicate (matMul (transpose x) x).length [(1 : ℚ)]
        = colMat (powerMethodVec (matMul (transpose x) x) 0) by
      simp [colMat, powerMethodVec, List.map_replicate]]
    have h1 : matMul (matMul (transpose x) x)
        (colMat (powerMethodVec (matMul (transpose x) x) 0))
        = colMat (powerMethodVec (matMul (transpose x) x) 1) := by
      rw [matMul_colMat _ _ (by
        have := powerMethodVec_length (matMul (transpose x) x) 0
        intro h
        rw [h] at this
        exact hc (List.eq_nil_of_length_eq_zero this.symm))]
      rfl
    rw [h1, show (9 - 1 : ℕ) = 8 from rfl, powerIter_colMat _ hc 8 1,
      show (1 + 8 : ℕ) = 9 from rfl]
    have hne9 : powerMethodVec (matMul (transpose x) x) 9 ≠ [] := by
      have := powerMethodVec_length (matMul (transpose x) x) 9
      intro h
      rw [h] at this
      exact hc (List.eq_nil_of_length_eq_zero this.symm)
    have hcd : matMul (matMul (transpose x) x)
        (colMat (powerMethodVec (matMul (transpose x) x) 9))
        = colMat (powerMethodVec (matMul (transpose x) x) 10) := by
      rw [matMul_colMat _ _ hne9]
      rfl
    rw [hcd, mat11_quadForm, mat11_quadForm]

/-- Claim C2, amended. The eigenvalue regularizer computes the Gram matrix
`C = Xᵗ·X`, runs 9 power-method multiplications from the all-ones vector to
obtain `v`, forms `Cv` by one further multiplication, estimates the
dominant eigenvalue as the Rayleigh quotient `(Cvᵗ·v) / (vᵗ·v)` — not
`(Cvᵗ·Cv) / (vᵗ·v)` as claimed — and returns `sqrt(eigenvalue) * k`. -/
theorem eig_call_power_method (k : ℚ) (x : Mat) :
    EigenvalueRegularizer.call k x
      = Real.sqrt
          ((dotList (powerMethodVec (gramMatrix x) 10) (powerMethodVec (gramMatrix x) 9)
            / dotList (powerMethodVec (gramMatrix x) 9) (powerMethodVec (gramMatrix x) 9)
            : ℚ) : ℝ) * k := by
  unfold EigenvalueRegularizer.call
  rw [eigEstimate_eq]

/-- The penalty the claim literally describes: identical pipeline but with
the Rayleigh numerator `(Cv)ᵗ·(Cv)` instead of the `(Cv)ᵗ·v` that the code computes. -/
noncomputable def eigPenaltyClaimed (k : ℚ) (x : Mat) : ℝ :=
  Real.sqrt
    ((dotList (powerMethodVec (gramMatrix x) 10) (powerMethodVec (gramMatrix x) 10)
      / dotList (powerMethodVec (gramMatrix x) 9) (powerMethodVec (gramMatrix x) 9)
      : ℚ) : ℝ) * k

/-- Claim C2 counterexample. On the 1×1 matrix `[[2]]` with gain `k = 1` the
code returns `2` (its eigenvalue estimate is `4`) while the claimed
formula returns `4` (its estimate is `16`). -/
theorem eig_rayleigh_counterexample :
    EigenvalueRegularizer.call 1 [[2]] = 2
    ∧ eigPenaltyClaimed 1 [[2]] = 4
    ∧ EigenvalueRegularizer.call 1 [[2]] ≠ eigPenaltyClaimed 1 [[2]] := by
  have hcode : EigenvalueRegularizer.call 1 [[2]] = 2 := by
    have h4 : eigEstimate [[2]] = 4 := by
      norm_num [eigEstimate, matMul, transpose, dotList, mat11, powerIter,
        List.replicate, List.range_succ]
    unfold EigenvalueRegularizer.call
    rw [h4]
    rw [show ((4 : ℚ) : ℝ) = 2 ^ 2 by norm_num,
      Real.sqrt_sq (by norm_num : (0 : ℝ) ≤ 2)]
    norm_num
  have hclaim : eigPenaltyClaimed 1 [[2]] = 4 := by
    have h16 :
        (dotList (powerMethodVec (gramMatrix [[2]]) 10) (powerMethodVec (gramMatrix [[2]]) 10)
          / dotList (powerMethodVec (gramMatrix [[2]]) 9) (powerMethodVec (gramMatrix [[2]]) 9)
          : ℚ) = 16 := by
      norm_num [gramMatrix, powerMethodVec, matMul, transpose, dotList,
        List.replicate, List.range_succ]
    unfold eigPenaltyClaimed
    rw [h16]
    rw [show ((16 : ℚ) : ℝ) = 4 ^ 2 by norm_num,
      Real.sqrt_sq (by norm_num : (0 : ℝ) ≤ 4)]
    norm_num
  refine ⟨hcode, hclaim, ?_⟩
  rw [hcode, hclaim]
  norm_num

/-! ## Identifier resolution and the serialization registry
(`serialize`, `deserialize`, `get`)

A regularizer value is one of the variants of the module.  A configuration
(`config`) is the keyword-parameter mapping of a constructor, an
association list from parameter name to float value.  The helpers
`serialize_keras_object` / `deserialize_keras_object` live in
`utils/generic_utils.py`, which is not part of the sources; they are
modelled from the spec where marked. -/

/-- The regularizer variants of the module (tagged by their class). -/
inductive Reg
  | base
  | l1l2 (l1 l2 : ℚ)
  | eigen (k : ℚ)
  | weight (l1 l2 : ℚ) (p : Option Tensor)
  | activity (l1 l2 : ℚ) (layer : Option Layer)
deriving DecidableEq

/-- Whether a variant is one of the stateless ones (no bind state). -/
def Reg.stateless : Reg → Bool
  | .base => true
  | .l1l2 _ _ => true
  | .eigen _ => true
  | .weight _ _ _ => false
  | .activity _ _ _ => false

/-- Whether a value is the stateless L1L2 variant. -/
def Reg.isL1L2 : Reg → Bool
  | .l1l2 _ _ => true
  | _ => false

/-- The keyword-parameter mapping of a constructor: parameter name ↦ float. -/
abbrev Config := List (String × ℚ)

/-- Read a keyword argument, falling back to the declared default of the parameter. -/
def getArg (cfg : Config) (key : String) (dflt : ℚ) : ℚ :=
  (cfg.lookup key).getD dflt

/-- First definition of the alias `l1` (stateless); its module-level name
is later rebound by the legacy redefinition below. -/
def l1_stateless (l : ℚ) : Reg := .l1l2 l 0

/-- First definition of the alias `l2` (stateless); its module-level name
is later rebound by the legacy redefinition below. -/
def l2_stateless (l : ℚ) : Reg := .l1l2 0 l

/-- The alias `l1_l2` (stateless); never rebound.  Default for both
parameters is `0.01`. -/
def l1_l2 (a b : ℚ) : Reg := .l1l2 a b

/-- Legacy redefinition of `l1`: the binding that survives in the module
namespace constructs a `WeightRegularizer`. -/
def l1 (l : ℚ) : Reg := .weight l 0 none

/-- Legacy redefinition of `l2`: the binding that survives in the module
namespace constructs a `WeightRegularizer`. -/
def l2 (l : ℚ) : Reg := .weight 0 l none

/-- Legacy `l1l2` (no underscore): constructs a `WeightRegularizer`. -/
def l1l2 (a b : ℚ) : Reg := .weight a b none

/-- Legacy `activity_l1`. -/
def activity_l1 (l : ℚ) : Reg := .activity l 0 none

/-- Legacy `activity_l2`. -/
def activity_l2 (l : ℚ) : Reg := .activity 0 l none

/-- Legacy `activity_l1l2`. -/
def activity_l1l2 (a b : ℚ) : Reg := .activity a b none

/-- The global namespace of the module as the deserialization registry: class
name ↦ constructor taking the config as keyword parameters.  The entries
for `l1`, `l2` and `l1l2` are the legacy redefinitions, which shadow the
earlier stateless aliases (Python keeps only the last binding of a name);
`l1_l2` still names the stateless alias.  Alias parameters default to
`0.01`, class coefficients to `0`.  (A call missing the required `k` of
`EigenvalueRegularizer` would be a TypeError in Python; no claim exercises
it, and it is modelled as `k = 0`.) -/
def moduleGlobals (className : String) : Option (Config → Reg) :=
  if className = "Regularizer" then some (fun _ => .base)
  else if className = "L1L2" then
    some (fun cfg => .l1l2 (getArg cfg "l1" 0) (getArg cfg "l2" 0))
  else if className = "EigenvalueRegularizer" then
    some (fun cfg => .eigen (getArg cfg "k" 0))
  else if className = "WeightRegularizer" then
    some (fun cfg => .weight (getArg cfg "l1" 0) (getArg cfg "l2" 0) none)
  else if className = "ActivityRegularizer" then
    some (fun cfg => .activity (getArg cfg "l1" 0) (getArg cfg "l2" 0) none)
  else if className = "l1" then some (fun cfg => l1 (getArg cfg "l" (1/100)))
  else if className = "l2" then some (fun cfg => l2 (getArg cfg "l" (1/100)))
  else if className = "l1l2" then
    some (fun cfg => l1l2 (getArg cfg "l1" (1/100)) (getArg cfg "l2" (1/100)))
  else if className = "l1_l2" then
    some (fun cfg => l1_l2 (getArg cfg "l1" (1/100)) (getArg cfg "l2" (1/100)))
  else if className = "activity_l1" then
    some (fun cfg => activity_l1 (getArg cfg "l" (1/100)))
  else if className = "activity_l2" then
    some (fun cfg => activity_l2 (getArg cfg "l" (1/100)))
  else if className = "activity_l1l2" then
    some (fun cfg =>
      activity_l1l2 (getArg cfg "l1" (1/100)) (getArg cfg "l2" (1/100)))
  else none

/-- User-supplied overrides, checked before the built-in registry. -/
abbrev CustomObjects := List (String × (Config → Reg))

/-- Modelled from the spec: `serialize_keras_object` (defined in
`utils/generic_utils.py`, not under `src/`) produces the mapping with keys
`class_name` and `config`, where `config` holds the named
constructor parameters of the variant as floats. -/
def serialize : Reg → String × Config
  | .base => ("Regularizer", [])
  | .l1l2 a b => ("L1L2", [("l1", a), ("l2", b)])
  | .eigen k => ("EigenvalueRegularizer", [("k", k)])
  | .weight a b _ => ("WeightRegularizer", [("l1", a), ("l2", b)])
  | .activity a b _ => ("ActivityRegularizer", [("l1", a), ("l2", b)])

/-- Modelled from the spec: `deserialize_keras_object` (defined in
`utils/generic_utils.py`, not under `src/`) looks `class_name` up first
among the user-supplied overrides, then among the built-in variants, fails
with a not-found error naming "regularizer" when absent, and otherwise
constructs the variant by passing `config` as keyword parameters. -/
def deserialize_keras_object (customObjects : CustomObjects)
    (className : String) (cfg : Config) : Except String Reg :=
  match customObjects.lookup className with
  | some ctor => .ok (ctor cfg)
  | none =>
    match moduleGlobals className with
    | some ctor => .ok (ctor cfg)
    | none => .error ("Unknown regularizer: " ++ className)

/-- Python `deserialize` from the source: delegates to `deserialize_keras_object`
with `module_objects = globals()` and printable name "regularizer".  The
serialized form is the pair (class_name, config). -/
def deserialize (cfg : String × Config) (customObjects : CustomObjects) :
    Except String Reg :=
  deserialize_keras_object customObjects cfg.1 cfg.2

/-- The `get` argument: `None`, a config mapping, a string, an
already-callable value, or anything else (carried with its textual
representation `str(identifier)`). -/
inductive Identifier
  | idNone
  | idDict (className : String) (cfg : Config)
  | idStr (s : String)
  | idCallable (r : Reg)
  | idOther (text : String)

/-- Python `get` from the source: resolves an identifier to `None`, to a
deserialized regularizer, or to the callable itself; anything else raises
`ValueError`. -/
def get : Identifier → Except String (Option Reg)
  | .idNone => .ok none
  | .idDict className cfg => (deserialize (className, cfg) []).map some
  | .idStr s => (deserialize (s, []) []).map some
  | .idCallable r => .ok (some r)
  | .idOther text =>
    .error ("Could not interpret regularizer identifier: " ++ text)

/-- Claim C3. `get` returns absence on `None`, deserializes a mapping via
the registry, treats a string as a bare class name with empty parameters
(same result as the corresponding mapping), returns a callable identically,
and fails on anything else with an invalid-argument error whose message
contains the textual representation of the identifier. -/
theorem get_cases (n : String) (cfg : Config) (s t : String) (r : Reg) :
    get .idNone = .ok none
    ∧ get (.idDict n cfg) = (deserialize (n, cfg) []).map some
    ∧ get (.idStr s) = get (.idDict s [])
    ∧ get (.idCallable r) = .ok (some r)
    ∧ get (.idOther t)
        = .error ("Could not interpret regularizer identifier: " ++ t)
    ∧ ∃ pre post,
        "Could not interpret regularizer identifier: " ++ t
          = pre ++ t ++ post :=
  ⟨rfl, rfl, rfl, rfl, rfl,
    ⟨"Could not interpret regularizer identifier: ", "", by simp⟩⟩

/-- Claim C4. Round-trip: for every stateless variant (no bind state),
deserializing `serialize r` with no custom objects reconstructs `r`
itself — hence the same coefficients and the same penalty on any input. -/
theorem serialize_roundtrip (r : Reg) (h : r.stateless = true) :
    deserialize (serialize r) [] = .ok r := by
  cases r with
  | base => rfl
  | l1l2 a b =>
    simp [deserialize, serialize, deserialize_keras_object, moduleGlobals,
      getArg, List.lookup]
  | eigen k =>
    simp [deserialize, serialize, deserialize_keras_object, moduleGlobals,
      getArg, List.lookup]
  | weight a b p => simp [Reg.stateless] at h
  | activity a b ly => simp [Reg.stateless] at h

/-- Witness for C4 at the stateless variant `L1L2(0.3, 0.7)`. -/
theorem serialize_roundtrip_witness :
    (Reg.l1l2 (3/10) (7/10)).stateless = true
    ∧ deserialize (serialize (Reg.l1l2 (3/10) (7/10))) []
        = .ok (Reg.l1l2 (3/10) (7/10)) :=
  ⟨rfl, serialize_roundtrip (Reg.l1l2 (3/10) (7/10)) rfl⟩

/-- Claim C5 counterexample. Deserializing the lowercase alias name "l2"
does not construct the stateless L1L2 variant: it constructs the legacy
bound `WeightRegularizer` variant, because the legacy
redefinition of `l2` in the module shadows the stateless alias. -/
theorem deserialize_l2_not_L1L2 :
    deserialize ("l2", []) [] = .ok (Reg.weight 0 (1/100) none)
    ∧ (Reg.weight 0 (1/100) none).isL1L2 = false := by
  constructor
  · simp [deserialize, deserialize_keras_object, moduleGlobals, getArg,
      List.lookup, l2]
  · rfl

/-- Claim C5, amended. `get("l2")` yields exactly the module-level `l2()`
with its default coefficient `0.01` — which, due to the legacy
redefinitions shadowing the stateless aliases, is the bound
`WeightRegularizer` variant, as are the results for "l1" and "l1l2";
only "l1_l2" still constructs the stateless L1L2 variant, receiving the
config as keyword parameters. -/
theorem aliases_deserialize :
    get (.idStr "l2") = .ok (some (l2 (1/100)))
    ∧ l2 (1/100) = Reg.weight 0 (1/100) none
    ∧ deserialize ("l1", []) [] = .ok (l1 (1/100))
    ∧ deserialize ("l1l2", []) [] = .ok (l1l2 (1/100) (1/100))
    ∧ deserialize ("l1_l2", []) [] = .ok (l1_l2 (1/100) (1/100))
    ∧ deserialize ("l1_l2", [("l1", (3 : ℚ)), ("l2", 5)]) []
        = .ok (Reg.l1l2 3 5) := by
  refine ⟨?_, rfl, ?_, ?_, ?_, ?_⟩ <;>
    simp [get, deserialize, deserialize_keras_object, moduleGlobals, getArg,
      List.lookup, l1, l2, l1l2, l1_l2, Except.map]

/-- Claim C7. A class name absent from both the overrides and the built-in
registry makes deserialization fail with the not-found error, whose
message names "regularizer"; in particular deserializing a config whose
class_name is not_a_real_regularizer with empty parameters fails that
way. -/
theorem deserialize_unknown (customObjects : CustomObjects)
    (name : String) (cfg : Config)
    (h1 : customObjects.lookup name = none)
    (h2 : moduleGlobals name = none) :
    deserialize_keras_object customObjects name cfg
        = .error ("Unknown regularizer: " ++ name)
    ∧ deserialize ("not_a_real_regularizer", []) []
        = .error "Unknown regularizer: not_a_real_regularizer"
    ∧ ∃ pre post,
        "Unknown regularizer: " ++ name = pre ++ "regularizer" ++ post := by
  refine ⟨?_, ?_, "Unknown ", ": " ++ name, ?_⟩
  · simp [deserialize_keras_object, h1, h2]
  · simp [deserialize, deserialize_keras_object, moduleGlobals, List.lookup]
  · simp [← String.append_assoc]

/-- Witness for C7 at `class_name = "not_a_real_regularizer"` with no
custom objects. -/
theorem deserialize_unknown_witness :
    ([] : CustomObjects).lookup "not_a_real_regularizer" = none
    ∧ moduleGlobals "not_a_real_regularizer" = none
    ∧ deserialize_keras_object [] "not_a_real_regularizer" []
        = .error ("Unknown regularizer: " ++ "not_a_real_regularizer") :=
  ⟨rfl, by simp [moduleGlobals],
    (deserialize_unknown [] "not_a_real_regularizer" [] rfl
      (by simp [moduleGlobals])).1⟩

end KerasRegularizers
